import Mathlib

/-!
Shallow embedding of `src/spellbook/src/Geometry/Model3D.js` (voodoo.js
spellbook `Model3D` component): the view delegate `Model3DView_` and the
control object `Model3D` with its public operations `play`, `stop`,
`setAnimation`, `setModelSrc` and the per-frame `update`.

JavaScript numbers are embedded as `Rat`.  The external rendering library
(THREE.js) mesh is embedded as an abstract record `Mesh`; its internal
animation-clock update `updateAnimation(deltaMs)` is external to the
repository, so it is taken as a parameter `adv : Rat → Mesh → Mesh`
wherever the source calls it.  Event dispatch (`this.dispatch(...)`) is
embedded as an append-only trace of events in the state.
-/

namespace Spellbook

/-- An animation clip as stored by `Model3D.setAnimation` (lines 326-332):
`{start, end, duration, loop, forward}`; `duration` is milliseconds. -/
structure AnimationClip where
  start : Rat
  «end» : Rat
  duration : Rat
  loop : Bool
  forward : Bool
deriving DecidableEq, Repr

/-- Modelled from the spec: the external rendering library's mesh
(`THREE.Mesh` / `THREE.MorphAnimMesh`), which is not part of this
repository.  Only the fields the source reads or writes are kept:
`time`, `duration`, play direction, frame range, and whether the mesh
has an `updateAnimation` capability (true for the morph-animated
variant, false for the static variant). -/
structure Mesh where
  time : Rat
  duration : Rat
  forwardDir : Bool
  frameStart : Rat
  frameEnd : Rat
  hasUpdateAnimation : Bool
deriving DecidableEq, Repr

/-- Error outcomes of the component's fallible operations.  The first
three stand for `log_.assert_` failures (`log_` lives in voodoo core,
outside `src/`); Modelled from the spec: section 7 assigns
InvalidArgument / NotFound / InvalidState to the respective assertions.
`nullMesh` stands for the JavaScript TypeError raised on dereferencing
an absent (`null`) mesh. -/
inductive SpellErr where
  | invalidArgument
  | invalidState
  | notFound
  | nullMesh
deriving DecidableEq, Repr

/-- Events dispatched by `Model3D` (`play`, `stop`, `changeModelSrc`). -/
inductive ModelEvent where
  | play
  | stop
  | changeModelSrc
deriving DecidableEq, Repr

/-- The view delegate `Model3DView_`.  `dirtyFlag` embeds `this.dirty()`
(the needs-re-render mark); `reloads` is a ghost counter of how many
times an asynchronous JSON load was started by `loadJson_` (used to
observe reload triggers).  Note that `modelMesh = none` embeds
`this.modelMesh_ === null`/undefined. -/
structure Model3DView where
  loaded : Bool
  pendingAnimation : Option AnimationClip
  modelMesh : Option Mesh
  dirtyFlag : Bool
  reloads : Nat
deriving DecidableEq, Repr

namespace Model3DView

/-- `Model3DView_.playAnimation_` (lines 83-98): while unloaded, queue the
clip in the single pending slot; once loaded, reset the mesh clock to 0
and set duration, direction and frame range.  Dereferencing a missing
mesh while `loaded` is a TypeError (`nullMesh`). -/
def playAnimation (animation : AnimationClip) (v : Model3DView) :
    Except SpellErr Model3DView :=
  if v.loaded = false then
    .ok { v with pendingAnimation := some animation }
  else
    match v.modelMesh with
    | none => .error .nullMesh
    | some m =>
        let m2 : Mesh :=
          { m with time := 0, duration := animation.duration,
                   forwardDir := animation.forward,
                   frameStart := animation.start,
                   frameEnd := animation.«end» }
        .ok { v with modelMesh := some m2 }

/-- `Model3DView_.updateAnimation_` (lines 100-113): no-op until loaded;
apply and clear any pending clip; then, if the mesh supports animation,
advance its clock by `deltaTimeMs` (the external clock update is the
parameter `adv`) and mark the view dirty. -/
def updateAnimation (adv : Rat → Mesh → Mesh) (deltaTimeMs : Rat)
    (v : Model3DView) : Except SpellErr Model3DView :=
  if v.loaded = false then .ok v
  else
    let applied : Except SpellErr Model3DView :=
      match v.pendingAnimation with
      | some c =>
          match playAnimation c v with
          | .error e => .error e
          | .ok v' => .ok { v' with pendingAnimation := none }
      | none => .ok v
    match applied with
    | .error e => .error e
    | .ok v1 =>
        match v1.modelMesh with
        | none => .error .nullMesh
        | some m =>
            if m.hasUpdateAnimation then
              .ok { v1 with modelMesh := some (adv deltaTimeMs m),
                            dirtyFlag := true }
            else .ok v1

/-- `Model3DView_.getLastTime_` (lines 115-117):
`this.loaded ? this.modelMesh_.time : 0`. -/
def getLastTime (v : Model3DView) : Except SpellErr Rat :=
  if v.loaded then
    match v.modelMesh with
    | none => .error .nullMesh
    | some m => .ok m.time
  else .ok 0

/-- `Model3DView_.setToLastFrame_` (lines 119-125): if the mesh supports
animation, set its clock to the terminal value 1, run a zero-delta
clock update, and mark dirty. -/
def setToLastFrame (adv : Rat → Mesh → Mesh) (v : Model3DView) :
    Except SpellErr Model3DView :=
  match v.modelMesh with
  | none => .error .nullMesh
  | some m =>
      if m.hasUpdateAnimation then
        .ok { v with modelMesh := some (adv 0 ({ m with time := 1 })),
                     dirtyFlag := true }
      else .ok v

/-- `Model3DView_.unload` (lines 27-38): remove and drop the mesh (the
material disposal has no observable counterpart here).  Note the source
does NOT reset `loaded`. -/
def unload (v : Model3DView) : Model3DView :=
  { v with modelMesh := none }

/-- `Model3DView_.loadModel_` (lines 40-45): unload, then start an
asynchronous JSON load when the model's format is `"json"` (ghost
counter `reloads` observes the start). -/
def loadModel (format : String) (v : Model3DView) : Model3DView :=
  let v1 := unload v
  if format = "json" then { v1 with reloads := v1.reloads + 1 } else v1

/-- Completion callback of `Model3DView_.loadJson_` (lines 50-80): build
a mesh from the loaded geometry and materials — morph-animated when the
model is `animated`, static otherwise — attach it, and mark the view
loaded.  The mesh contents come from the external loader, so the built
mesh is the parameter `m`. -/
def finishLoad (animated : Bool) (m : Mesh) (v : Model3DView) :
    Model3DView :=
  { v with modelMesh := some ({ m with hasUpdateAnimation := animated }),
           loaded := true }

/-- `Model3DView_.load` (lines 18-25): fresh view state followed by
`loadModel_`. -/
def load (format : String) : Model3DView :=
  loadModel format
    { loaded := false, pendingAnimation := none, modelMesh := none,
      dirtyFlag := false, reloads := 0 }

end Model3DView

/-- The animation registry `this.animations_`: a JavaScript object used
as a string-keyed map, embedded as an association list with unique
keys.  `this.animations_[name] = clip` overwrites in place. -/
def putClip (m : List (String × AnimationClip)) (name : String)
    (c : AnimationClip) : List (String × AnimationClip) :=
  match m with
  | [] => [(name, c)]
  | (k, v) :: rest =>
      if k = name then (k, c) :: rest else (k, v) :: putClip rest name c

/-- The control object `Model3D` (its mutable fields plus the two view
delegates the host framework hands it).  `events` is the ghost trace of
dispatched events; `lastTime` embeds `this.lastTime_` (first written by
`play`, only read while playing; 0 before then). -/
structure Model3D where
  modelSrc : String
  format : String
  animated : Bool
  animations : List (String × AnimationClip)
  animation : String
  playing : Bool
  looping : Bool
  lastTime : Rat
  view : Model3DView
  stencilView : Option Model3DView
  events : List ModelEvent
deriving DecidableEq, Repr

namespace Model3D

/-- `this.dispatch(new voodoo.Event(e, this))`, embedded as appending to
the ghost event trace. -/
def dispatch (e : ModelEvent) (s : Model3D) : Model3D :=
  { s with events := s.events ++ [e] }

/-- The source's repeated pattern `this.view.f(...); if (this.stencilView)
this.stencilView.f(...);`: apply a fallible view operation to the
primary view, then to the stencil view when present. -/
def forwardToViews (f : Model3DView → Except SpellErr Model3DView)
    (s : Model3D) : Except SpellErr Model3D :=
  match f s.view with
  | .error e => .error e
  | .ok v =>
      match s.stencilView with
      | none => .ok { s with view := v }
      | some sv =>
          match f sv with
          | .error e => .error e
          | .ok sv' => .ok { s with view := v, stencilView := some sv' }

/-- `Model3D.initialize` (lines 157-221), named `initModel` here: validate `modelSrc` (non-empty
string), `format` (only `"json"`), `animated` (defaults true); start
with an empty animation registry, no current animation, not playing,
not looping.  The views are created by the host framework and run
`Model3DView_.load`.  The dynamic property accessors are not modelled
(they delegate to the methods below). -/
def initModel (modelSrc : String) (format : Option String)
    (animated : Option Bool) (hasStencil : Bool) :
    Except SpellErr Model3D :=
  if modelSrc = "" then .error .invalidArgument
  else
    match format with
    | some f =>
        if f = "json" then
          .ok { modelSrc := modelSrc, format := f,
                animated := animated.getD true, animations := [],
                animation := "", playing := false, looping := false,
                lastTime := 0, view := Model3DView.load f,
                stencilView := if hasStencil then some (Model3DView.load f)
                               else none,
                events := [] }
        else .error .invalidArgument
    | none =>
        .ok { modelSrc := modelSrc, format := "json",
              animated := animated.getD true, animations := [],
              animation := "", playing := false, looping := false,
              lastTime := 0, view := Model3DView.load "json",
              stencilView := if hasStencil then
                               some (Model3DView.load "json")
                             else none,
              events := [] }

/-- `Model3D.prototype.play` (lines 258-292).  With no name: assert a
last animation exists and resume.  With a name: assert it non-empty and
registered; if it is the current animation just resume; otherwise
select it, forward the clip to the view delegates, dispatch `play` on a
false-to-true playing transition, and reset looping and the sampled
time. -/
def play (opt_name : Option String) (s : Model3D) :
    Except SpellErr Model3D :=
  match opt_name with
  | none =>
      if (s.animations.lookup s.animation).isSome then
        .ok { s with playing := true }
      else .error .invalidState
  | some name =>
      if name = "" then .error .invalidArgument
      else
        match s.animations.lookup name with
        | none => .error .notFound
        | some animation =>
            if s.animation = name then .ok { s with playing := true }
            else
              match forwardToViews (Model3DView.playAnimation animation)
                  ({ s with animation := name }) with
              | .error e => .error e
              | .ok s2 =>
                  let s3 := if s2.playing then s2 else dispatch .play s2
                  .ok { s3 with playing := true,
                                looping := animation.loop, lastTime := 0 }

/-- `Model3D.prototype.setAnimation` (lines 308-335): assert the name
non-empty and the numeric arguments non-negative, then insert or
overwrite the clip; `duration` is `seconds * 1000`, `loop` and
`forward` default to true.  No other field changes. -/
def setAnimation (name : String) (start «end» seconds : Rat)
    (opt_loop opt_forward : Option Bool) (s : Model3D) :
    Except SpellErr Model3D :=
  if name = "" then .error .invalidArgument
  else if start < 0 then .error .invalidArgument
  else if «end» < 0 then .error .invalidArgument
  else if seconds < 0 then .error .invalidArgument
  else
    let clip : AnimationClip :=
      { start := start, «end» := «end», duration := seconds * 1000,
        loop := opt_loop.getD true, forward := opt_forward.getD true }
    .ok { s with animations := putClip s.animations name clip }

/-- `Model3D.prototype.stop` (lines 372-379): dispatch `stop` when
currently playing; unconditionally clear the playing flag. -/
def stop (s : Model3D) : Model3D :=
  let s1 := if s.playing then dispatch .stop s else s
  { s1 with playing := false }

/-- `Model3D.prototype.setModelSrc` (lines 345-364): assert non-empty;
no-op when unchanged; otherwise record the new source, `stop()`,
dispatch `changeModelSrc`, and restart the load on each present view
delegate. -/
def setModelSrc (modelSrc : String) (s : Model3D) :
    Except SpellErr Model3D :=
  if modelSrc = "" then .error .invalidArgument
  else if s.modelSrc = modelSrc then .ok s
  else
    let s1 := dispatch .changeModelSrc (stop ({ s with modelSrc := modelSrc }))
    let s2 := { s1 with view := s1.view.loadModel s1.format }
    .ok (match s2.stencilView with
         | some sv => { s2 with stencilView := some (sv.loadModel s2.format) }
         | none => s2)

/-- `Model3D.update` (lines 223-245): only while playing.  Advance both
view delegates by the delta converted to milliseconds; when not
looping, sample the primary delegate's time: a strictly smaller sample
than `lastTime_` means the one-shot clip wrapped, so snap both views to
the last frame and `stop()`; otherwise record the sample. -/
def update (adv : Rat → Mesh → Mesh) (deltaTime : Rat) (s : Model3D) :
    Except SpellErr Model3D :=
  if s.playing = false then .ok s
  else
    match forwardToViews
        (Model3DView.updateAnimation adv (deltaTime * 1000)) s with
    | .error e => .error e
    | .ok s1 =>
        if s1.looping then .ok s1
        else
          match s1.view.getLastTime with
          | .error e => .error e
          | .ok lastTime =>
              if lastTime < s1.lastTime then
                match forwardToViews (Model3DView.setToLastFrame adv) s1 with
                | .error e => .error e
                | .ok s2 => .ok (stop s2)
              else .ok { s1 with lastTime := lastTime }

/-- Firing of the asynchronous load-completion callback on one of the
two view delegates (`Model3DView_.loadJson_`'s callback; the built mesh
is external input). -/
def finishLoad (primary : Bool) (m : Mesh) (s : Model3D) : Model3D :=
  if primary then { s with view := s.view.finishLoad s.animated m }
  else
    match s.stencilView with
    | some sv => { s with stencilView := some (sv.finishLoad s.animated m) }
    | none => s

end Model3D

/-- The public operations of the component (plus the asynchronous load
completion, which may fire between any two calls). -/
inductive Op where
  | setAnimation (name : String) (start «end» seconds : Rat)
      (opt_loop opt_forward : Option Bool)
  | play (opt_name : Option String)
  | stop
  | setModelSrc (modelSrc : String)
  | update (adv : Rat → Mesh → Mesh) (deltaTime : Rat)
  | finishLoad (primary : Bool) (m : Mesh)

/-- Apply one operation to a state. -/
def applyOp (op : Op) (s : Model3D) : Except SpellErr Model3D :=
  match op with
  | .setAnimation name start «end» seconds l f =>
      s.setAnimation name start «end» seconds l f
  | .play n => s.play n
  | .stop => .ok s.stop
  | .setModelSrc p => s.setModelSrc p
  | .update adv d => s.update adv d
  | .finishLoad p m => .ok (s.finishLoad p m)

/-- Run a sequence of operations; a sequence containing a failing call
produces no final state. -/
def runOps (s : Model3D) : List Op → Except SpellErr Model3D
  | [] => .ok s
  | op :: rest =>
      match applyOp op s with
      | .error e => .error e
      | .ok s' => runOps s' rest


-- sanity checks

deriving instance DecidableEq for Except

def walkClip : AnimationClip :=
  { start := 0, «end» := 30, duration := 2000, loop := true, forward := true }

def walkState : Model3D :=
  { modelSrc := "model.json", format := "json", animated := true,
    animations := [("walk", walkClip)],
    animation := "", playing := false, looping := false, lastTime := 0,
    view := { loaded := false, pendingAnimation := none, modelMesh := none,
              dirtyFlag := false, reloads := 1 },
    stencilView := none, events := [] }

def walkPlayed : Model3D :=
  { modelSrc := "model.json", format := "json", animated := true,
    animations := [("walk", walkClip)],
    animation := "walk", playing := true, looping := true, lastTime := 0,
    view := { loaded := false, pendingAnimation := some walkClip,
              modelMesh := none, dirtyFlag := false, reloads := 1 },
    stencilView := none, events := [ModelEvent.play] }

def animKeyInv (s : Model3D) : Prop :=
  s.animation = "" ∨ (s.animations.lookup s.animation).isSome = true

def loopMirrorInv (s : Model3D) : Prop :=
  (s.playing = true → (s.animations.lookup s.animation).isSome = true) ∧
  (∀ c, s.animations.lookup s.animation = some c → s.looping = c.loop)

def guardOk (s : Model3D) : Op → Bool
  | Op.setAnimation name _ _ _ _ _ => !(name == s.animation)
  | _ => true

def noCurrentOverwrite : Model3D → List Op → Bool
  | _, [] => true
  | s, op :: rest =>
      guardOk s op &&
      (match applyOp op s with
       | .ok s' => noCurrentOverwrite s' rest
       | .error _ => true)

def initialState : Model3D :=
  { modelSrc := "model.json", format := "json", animated := true,
    animations := [], animation := "", playing := false, looping := false,
    lastTime := 0,
    view := { loaded := false, pendingAnimation := none, modelMesh := none,
              dirtyFlag := false, reloads := 1 },
    stencilView := none, events := [] }

def c8Clip : AnimationClip :=
  { start := 0, «end» := 30, duration := 2 * 1000, loop := true,
    forward := true }

def c8Final : Model3D :=
  { modelSrc := "model.json", format := "json", animated := true,
    animations := [("walk", c8Clip)], animation := "walk",
    playing := false, looping := true, lastTime := 0,
    view := { loaded := false, pendingAnimation := some c8Clip,
              modelMesh := none, dirtyFlag := false, reloads := 1 },
    stencilView := none,
    events := [ModelEvent.play, ModelEvent.stop] }

def c2ClipFalse : AnimationClip :=
  { start := 0, «end» := 10, duration := 1 * 1000, loop := false,
    forward := true }

def c2ClipTrue : AnimationClip :=
  { start := 0, «end» := 10, duration := 1 * 1000, loop := true,
    forward := true }

def c2Good : Model3D :=
  { modelSrc := "model.json", format := "json", animated := true,
    animations := [("a", c2ClipFalse)], animation := "a", playing := true,
    looping := false, lastTime := 0,
    view := { loaded := false, pendingAnimation := some c2ClipFalse,
              modelMesh := none, dirtyFlag := false, reloads := 1 },
    stencilView := none, events := [ModelEvent.play] }

def c2Bad : Model3D :=
  { modelSrc := "model.json", format := "json", animated := true,
    animations := [("a", c2ClipTrue)], animation := "a", playing := true,
    looping := false, lastTime := 0,
    view := { loaded := false, pendingAnimation := some c2ClipFalse,
              modelMesh := none, dirtyFlag := false, reloads := 1 },
    stencilView := none, events := [ModelEvent.play] }

def c1Adv : Rat → Mesh → Mesh := fun _ m => m

def c1Clip : AnimationClip :=
  { start := 0, «end» := 10, duration := 1000, loop := false,
    forward := true }

def c1Mesh : Mesh :=
  { time := 3, duration := 1000, forwardDir := true, frameStart := 0,
    frameEnd := 10, hasUpdateAnimation := true }

def c1SnapMesh : Mesh :=
  { time := 1, duration := 1000, forwardDir := true, frameStart := 0,
    frameEnd := 10, hasUpdateAnimation := true }

def c1View : Model3DView :=
  { loaded := true, pendingAnimation := none, modelMesh := some c1Mesh,
    dirtyFlag := false, reloads := 1 }

def c1View1 : Model3DView := { c1View with dirtyFlag := true }

def c1View2 : Model3DView :=
  { c1View with modelMesh := some c1SnapMesh, dirtyFlag := true }

def c1State : Model3D :=
  { modelSrc := "model.json", format := "json", animated := true,
    animations := [("a", c1Clip)], animation := "a", playing := true,
    looping := false, lastTime := 5,
    view := c1View, stencilView := some c1View, events := [] }

def c1S1 : Model3D :=
  { c1State with view := c1View1, stencilView := some c1View1 }

def c1S2 : Model3D :=
  { c1State with view := c1View2, stencilView := some c1View2 }

def c10View : Model3DView :=
  { loaded := false, pendingAnimation := none, modelMesh := none,
    dirtyFlag := false, reloads := 1 }

def c10ClipA : AnimationClip :=
  { start := 0, «end» := 5, duration := 500, loop := true, forward := true }

def c10ClipB : AnimationClip :=
  { start := 2, «end» := 8, duration := 800, loop := false,
    forward := false }

def c10Mesh : Mesh :=
  { time := 0, duration := 0, forwardDir := true, frameStart := 0,
    frameEnd := 0, hasUpdateAnimation := false }

def c3Clip : AnimationClip :=
  { start := 0, «end» := 10, duration := 1 * 1000, loop := true,
    forward := true }

def c3Mesh : Mesh :=
  { time := 0, duration := 0, forwardDir := true, frameStart := 0,
    frameEnd := 0, hasUpdateAnimation := true }

def c3Crash : Model3D :=
  { modelSrc := "other.json", format := "json", animated := true,
    animations := [("a", c3Clip), ("b", c3Clip)], animation := "",
    playing := false, looping := false, lastTime := 0,
    view := { loaded := true, pendingAnimation := none, modelMesh := none,
              dirtyFlag := false, reloads := 2 },
    stencilView := none, events := [ModelEvent.changeModelSrc] }

theorem putClip_lookup (m : List (String × AnimationClip)) (name k : String)
    (c : AnimationClip) :
    (putClip m name c).lookup k = if k = name then some c else m.lookup k := by
  induction m with
  | nil =>
      by_cases hk : k = name <;>
        simp [putClip, List.lookup, hk, show ((k == name) = decide (k = name)) from rfl]
  | cons hd tl ih =>
      obtain ⟨k1, v1⟩ := hd
      by_cases h1 : k1 = name
      · subst h1
        by_cases hk : k = k1 <;>
          simp [putClip, List.lookup, hk, show ((k == k1) = decide (k = k1)) from rfl]
      · by_cases hk : k = k1
        · subst hk
          have hkn : ¬ k = name := h1
          simp [putClip, List.lookup, h1, hkn,
            show ((k == k) = decide (k = k)) from rfl]
        · simp [putClip, List.lookup, h1, hk, ih,
            show ((k == k1) = decide (k = k1)) from rfl,
            show ((k == name) = decide (k = name)) from rfl]

theorem forwardToViews_ok_fields {f : Model3DView → Except SpellErr Model3DView}
    {s s' : Model3D} (h : Model3D.forwardToViews f s = .ok s') :
    s'.modelSrc = s.modelSrc ∧ s'.format = s.format ∧ s'.animated = s.animated ∧
    s'.animations = s.animations ∧ s'.animation = s.animation ∧
    s'.playing = s.playing ∧ s'.looping = s.looping ∧
    s'.lastTime = s.lastTime ∧ s'.events = s.events := by
  unfold Model3D.forwardToViews at h
  repeat' split at h
  all_goals first
    | (injection h with h; subst h;
       exact ⟨rfl, rfl, rfl, rfl, rfl, rfl, rfl, rfl, rfl⟩)
    | injection h

theorem play_ok_playing {o : Option String} {s s' : Model3D}
    (h : Model3D.play o s = .ok s') : s'.playing = true := by
  unfold Model3D.play at h
  repeat' split at h
  all_goals first
    | (injection h with h; subst h; rfl)
    | injection h

theorem play_none_ok {s s1 : Model3D} (h : Model3D.play none s = .ok s1) :
    s1 = { s with playing := true } ∧
    (s.animations.lookup s.animation).isSome = true := by
  simp only [Model3D.play] at h
  by_cases hcs : (s.animations.lookup s.animation).isSome = true
  · rw [if_pos hcs] at h
    injection h with h
    exact ⟨h.symm, hcs⟩
  · rw [if_neg hcs] at h
    exact absurd h (by simp)

theorem play_some_ok {name : String} {s s1 : Model3D}
    (h : Model3D.play (some name) s = .ok s1) :
    name ≠ "" ∧ s1.animation = name ∧ s1.animations = s.animations ∧
    s1.playing = true ∧ (s.animations.lookup name).isSome = true := by
  by_cases hne : name = ""
  · simp [Model3D.play, hne] at h
  · cases hc : s.animations.lookup name with
    | none => simp [Model3D.play, hne, hc] at h
    | some clip =>
      by_cases hcur : s.animation = name
      · simp [Model3D.play, hne, hc, hcur] at h
        subst h
        exact ⟨hne, rfl, rfl, rfl, by simp [hc]⟩
      · cases heq : Model3D.forwardToViews (Model3DView.playAnimation clip)
            ({ s with animation := name }) with
        | error e => simp [Model3D.play, hne, hc, hcur, heq] at h
        | ok s2 =>
          obtain ⟨_, _, _, ha, hb, hp, _, _, _⟩ := forwardToViews_ok_fields heq
          by_cases hpl : s2.playing = true
          · simp [Model3D.play, hne, hc, hcur, heq, hpl] at h
            subst h
            exact ⟨hne, by simp [hb], by simp [ha], rfl, by simp [hc]⟩
          · simp [Model3D.play, hne, hc, hcur, heq, hpl] at h
            subst h
            refine ⟨hne, by simp [Model3D.dispatch, hb],
              by simp [Model3D.dispatch, ha], rfl, by simp [hc]⟩

theorem play_some_cases {name : String} {s s1 : Model3D}
    (h : Model3D.play (some name) s = .ok s1) :
    (s.animation = name ∧ s1 = { s with playing := true }) ∨
    (∃ clip, s.animations.lookup name = some clip ∧
      s1.animation = name ∧ s1.animations = s.animations ∧
      s1.playing = true ∧ s1.looping = clip.loop) := by
  by_cases hne : name = ""
  · simp [Model3D.play, hne] at h
  · cases hc : s.animations.lookup name with
    | none => simp [Model3D.play, hne, hc] at h
    | some clip =>
      by_cases hcur : s.animation = name
      · left
        refine ⟨hcur, ?_⟩
        simp [Model3D.play, hne, hc, hcur] at h
        subst h
        cases s
        simp_all
      · right
        cases heq : Model3D.forwardToViews (Model3DView.playAnimation clip)
            ({ s with animation := name }) with
        | error e => simp [Model3D.play, hne, hc, hcur, heq] at h
        | ok s2 =>
          obtain ⟨_, _, _, ha, hb, hp, _, _, _⟩ := forwardToViews_ok_fields heq
          by_cases hpl : s2.playing = true
          · simp [Model3D.play, hne, hc, hcur, heq, hpl] at h
            subst h
            exact ⟨clip, rfl, by simp [hb], by simp [ha], rfl, rfl⟩
          · simp [Model3D.play, hne, hc, hcur, heq, hpl] at h
            subst h
            exact ⟨clip, rfl, by simp [Model3D.dispatch, hb],
              by simp [Model3D.dispatch, ha], rfl, rfl⟩

theorem stop_fields (s : Model3D) :
    (Model3D.stop s).animations = s.animations ∧
    (Model3D.stop s).animation = s.animation ∧
    (Model3D.stop s).looping = s.looping ∧
    (Model3D.stop s).playing = false ∧
    (Model3D.stop s).modelSrc = s.modelSrc ∧
    (Model3D.stop s).lastTime = s.lastTime ∧
    (Model3D.stop s).view = s.view ∧
    (Model3D.stop s).stencilView = s.stencilView := by
  by_cases h : s.playing <;> simp [Model3D.stop, Model3D.dispatch, h]

theorem finishLoad_fields (p : Bool) (m : Mesh) (s : Model3D) :
    (Model3D.finishLoad p m s).animations = s.animations ∧
    (Model3D.finishLoad p m s).animation = s.animation ∧
    (Model3D.finishLoad p m s).looping = s.looping ∧
    (Model3D.finishLoad p m s).playing = s.playing := by
  by_cases hp : p = true
  · simp [Model3D.finishLoad, hp]
  · cases hsv : s.stencilView <;> simp [Model3D.finishLoad, hp, hsv]

theorem setModelSrc_ok_fields {p : String} {s s' : Model3D}
    (h : Model3D.setModelSrc p s = .ok s') :
    s'.animations = s.animations ∧ s'.animation = s.animation ∧
    s'.looping = s.looping ∧ (s'.playing = true → s.playing = true) := by
  unfold Model3D.setModelSrc at h
  by_cases hp : p = ""
  · rw [if_pos hp] at h; exact absurd h (by simp)
  · rw [if_neg hp] at h
    by_cases hsame : s.modelSrc = p
    · rw [if_pos hsame] at h
      injection h with h; subst h
      exact ⟨rfl, rfl, rfl, fun hx => hx⟩
    · rw [if_neg hsame] at h
      injection h with h
      subst h
      cases hsv : ((Model3D.dispatch .changeModelSrc
          (Model3D.stop ({ s with modelSrc := p }))).stencilView) with
      | none =>
          by_cases hpl : s.playing = true <;>
            simp_all [Model3D.stop, Model3D.dispatch, Model3DView.loadModel,
              Model3DView.unload]
      | some sv =>
          by_cases hpl : s.playing = true <;>
            simp_all [Model3D.stop, Model3D.dispatch, Model3DView.loadModel,
              Model3DView.unload]

theorem update_ok_fields {adv : Rat → Mesh → Mesh} {d : Rat}
    {s s' : Model3D} (h : Model3D.update adv d s = .ok s') :
    s'.animations = s.animations ∧ s'.animation = s.animation ∧
    s'.looping = s.looping ∧ (s'.playing = true → s.playing = true) := by
  unfold Model3D.update at h
  by_cases hpl : s.playing = false
  · rw [if_pos hpl] at h
    injection h with h; subst h
    exact ⟨rfl, rfl, rfl, fun hx => hx⟩
  · rw [if_neg hpl] at h
    have hspl : s.playing = true := by revert hpl; cases s.playing <;> simp
    cases h1 : Model3D.forwardToViews
        (Model3DView.updateAnimation adv (d * 1000)) s with
    | error e => simp only [h1] at h; exact absurd h (by simp)
    | ok s1 =>
        simp only [h1] at h
        obtain ⟨_, _, _, ha, hb, hp, hlp, _, _⟩ := forwardToViews_ok_fields h1
        by_cases hloop : s1.looping = true
        · rw [if_pos hloop] at h
          injection h with h; subst h
          exact ⟨ha, hb, hlp, fun _ => hspl⟩
        · rw [if_neg hloop] at h
          cases h2 : s1.view.getLastTime with
          | error e => simp only [h2] at h; exact absurd h (by simp)
          | ok t =>
              simp only [h2] at h
              by_cases hlt : t < s1.lastTime
              · rw [if_pos hlt] at h
                cases h3 : Model3D.forwardToViews
                    (Model3DView.setToLastFrame adv) s1 with
                | error e => simp only [h3] at h; exact absurd h (by simp)
                | ok s2 =>
                    simp only [h3] at h
                    injection h with h; subst h
                    obtain ⟨_, _, _, ha2, hb2, _, hl2, _, _⟩ :=
                      forwardToViews_ok_fields h3
                    have hst := stop_fields s2
                    refine ⟨?_, ?_, ?_, ?_⟩
                    · rw [hst.1, ha2, ha]
                    · rw [hst.2.1, hb2, hb]
                    · rw [hst.2.2.1, hl2, hlp]
                    · intro hx
                      rw [hst.2.2.2.1] at hx
                      exact Bool.noConfusion hx
              · rw [if_neg hlt] at h
                injection h with h; subst h
                exact ⟨by simp [ha], by simp [hb], by simp [hlp],
                  fun _ => hspl⟩

theorem setAnimation_ok_shape {name : String} {start «end» seconds : Rat}
    {l f : Option Bool} {s s' : Model3D}
    (h : Model3D.setAnimation name start «end» seconds l f s = .ok s') :
    s' = { s with animations := putClip s.animations name (AnimationClip.mk start «end» (seconds * 1000) (l.getD true) (f.getD true)) } := by
  unfold Model3D.setAnimation at h
  repeat' split at h
  all_goals first
    | (injection h with h; exact h.symm)
    | injection h

theorem playAnimation_ok (c : AnimationClip) (v : Model3DView)
    (h : v.loaded = true → v.modelMesh.isSome = true) :
    ∃ v', Model3DView.playAnimation c v = .ok v' := by
  unfold Model3DView.playAnimation
  by_cases hl : v.loaded = false
  · rw [if_pos hl]; exact ⟨_, rfl⟩
  · have hl2 : v.loaded = true := by revert hl; cases v.loaded <;> simp
    obtain ⟨m, hm⟩ := Option.isSome_iff_exists.mp (h hl2)
    rw [if_neg hl]
    simp [hm]

theorem forwardToViews_ok {f : Model3DView → Except SpellErr Model3DView}
    {s : Model3D}
    (h1 : ∃ v', f s.view = .ok v')
    (h2 : ∀ sv, s.stencilView = some sv → ∃ v', f sv = .ok v') :
    ∃ s', Model3D.forwardToViews f s = .ok s' := by
  unfold Model3D.forwardToViews
  obtain ⟨v, hv⟩ := h1
  cases hsv : s.stencilView with
  | none => simp [hv, hsv]
  | some sv =>
      obtain ⟨v2, hv2⟩ := h2 sv hsv
      simp [hv, hsv, hv2]

theorem play_new_ok {s : Model3D} {name : String} {clip : AnimationClip}
    (hne : name ≠ "") (hc : s.animations.lookup name = some clip)
    (hcur : ¬ s.animation = name)
    (hv : s.view.loaded = true → s.view.modelMesh.isSome = true)
    (hsv : ∀ sv, s.stencilView = some sv →
        (sv.loaded = true → sv.modelMesh.isSome = true)) :
    ∃ s', Model3D.play (some name) s = .ok s' := by
  have h1 : ∃ v', Model3DView.playAnimation clip
      ({ s with animation := name } : Model3D).view = .ok v' :=
    playAnimation_ok clip s.view hv
  have h2 : ∀ sv, ({ s with animation := name } : Model3D).stencilView
      = some sv → ∃ v', Model3DView.playAnimation clip sv = .ok v' :=
    fun sv hs => playAnimation_ok clip sv (hsv sv hs)
  obtain ⟨s2, h2eq⟩ := forwardToViews_ok h1 h2
  by_cases hpl : s2.playing = true
  · refine ⟨{ s2 with playing := true, looping := clip.loop, lastTime := 0 }, ?_⟩
    simp [Model3D.play, hne, hc, hcur, h2eq, hpl]
  · refine ⟨{ Model3D.dispatch .play s2 with playing := true, looping := clip.loop, lastTime := 0 }, ?_⟩
    simp [Model3D.play, hne, hc, hcur, h2eq, hpl]

theorem applyOp_animKeyInv {op : Op} {s s' : Model3D}
    (h : applyOp op s = .ok s') (inv : animKeyInv s) : animKeyInv s' := by
  cases op with
  | setAnimation name start «end» seconds l f =>
      simp only [applyOp] at h
      have hs := setAnimation_ok_shape h
      subst hs
      by_cases hcn : s.animation = name
      · right; simp [putClip_lookup, hcn]
      · rcases inv with h0 | h0
        · exact Or.inl h0
        · right; simpa [putClip_lookup, hcn] using h0
  | play o =>
      simp only [applyOp] at h
      cases o with
      | none =>
          obtain ⟨h1, h2⟩ := play_none_ok h
          subst h1
          exact Or.inr h2
      | some name =>
          obtain ⟨hne, han, hanims, hpl, hsome⟩ := play_some_ok h
          right
          rw [han, hanims]
          exact hsome
  | stop =>
      simp only [applyOp] at h
      injection h with h; subst h
      have hst := stop_fields s
      unfold animKeyInv at *
      rw [hst.1, hst.2.1]
      exact inv
  | setModelSrc p =>
      simp only [applyOp] at h
      obtain ⟨ha, hb, _, _⟩ := setModelSrc_ok_fields h
      unfold animKeyInv at *
      rw [ha, hb]
      exact inv
  | update adv d =>
      simp only [applyOp] at h
      obtain ⟨ha, hb, _, _⟩ := update_ok_fields h
      unfold animKeyInv at *
      rw [ha, hb]
      exact inv
  | finishLoad p m =>
      simp only [applyOp] at h
      injection h with h; subst h
      have hf := finishLoad_fields p m s
      unfold animKeyInv at *
      rw [hf.1, hf.2.1]
      exact inv

theorem applyOp_loopMirrorInv {op : Op} {s s' : Model3D}
    (h : applyOp op s = .ok s') (hg : guardOk s op = true)
    (inv : loopMirrorInv s) : loopMirrorInv s' := by
  cases op with
  | setAnimation name start «end» seconds l f =>
      simp only [applyOp] at h
      have hs := setAnimation_ok_shape h
      subst hs
      have hcn : ¬ s.animation = name := by
        simp only [guardOk] at hg
        intro hx
        rw [hx] at hg
        simp at hg
      constructor
      · intro hp
        have := inv.1 hp
        simpa [putClip_lookup, hcn] using this
      · intro c hc
        rw [putClip_lookup] at hc
        rw [if_neg hcn] at hc
        exact inv.2 c hc
  | play o =>
      simp only [applyOp] at h
      cases o with
      | none =>
          obtain ⟨h1, h2⟩ := play_none_ok h
          subst h1
          exact ⟨fun _ => h2, fun c hc => inv.2 c hc⟩
      | some name =>
          rcases play_some_cases h with ⟨hcur, h1⟩ | ⟨clip, hc, ha, hb, hp, hl⟩
          · subst h1
            refine ⟨fun _ => ?_, fun c hc => inv.2 c hc⟩
            simp only [hcur]
            obtain ⟨hne, _, _, _, hsome⟩ := play_some_ok h
            simpa [hcur] using hsome
          · constructor
            · intro _
              rw [ha, hb, hc]
              simp
            · intro c hcc
              rw [ha, hb, hc] at hcc
              injection hcc with hcc
              rw [hl, hcc]
  | stop =>
      simp only [applyOp] at h
      injection h with h; subst h
      have hst := stop_fields s
      constructor
      · intro hp
        rw [hst.2.2.2.1] at hp
        exact Bool.noConfusion hp
      · intro c hc
        rw [hst.1, hst.2.1] at hc
        rw [hst.2.2.1]
        exact inv.2 c hc
  | setModelSrc p =>
      simp only [applyOp] at h
      obtain ⟨ha, hb, hl, hp⟩ := setModelSrc_ok_fields h
      constructor
      · intro hpp
        rw [ha, hb]
        exact inv.1 (hp hpp)
      · intro c hc
        rw [ha, hb] at hc
        rw [hl]
        exact inv.2 c hc
  | update adv d =>
      simp only [applyOp] at h
      obtain ⟨ha, hb, hl, hp⟩ := update_ok_fields h
      constructor
      · intro hpp
        rw [ha, hb]
        exact inv.1 (hp hpp)
      · intro c hc
        rw [ha, hb] at hc
        rw [hl]
        exact inv.2 c hc
  | finishLoad p m =>
      simp only [applyOp] at h
      injection h with h; subst h
      have hf := finishLoad_fields p m s
      constructor
      · intro hp
        rw [hf.1, hf.2.1]
        exact inv.1 (hf.2.2.2 ▸ hp)
      · intro c hc
        rw [hf.1, hf.2.1] at hc
        rw [hf.2.2.1]
        exact inv.2 c hc

theorem runOps_animKeyInv {ops : List Op} {s0 s : Model3D}
    (h : runOps s0 ops = .ok s) (inv : animKeyInv s0) : animKeyInv s := by
  induction ops generalizing s0 with
  | nil =>
      simp only [runOps] at h
      injection h with h
      subst h
      exact inv
  | cons op rest ih =>
      simp only [runOps] at h
      cases hstep : applyOp op s0 with
      | error e => simp only [hstep] at h; exact absurd h (by simp)
      | ok s1 =>
          simp only [hstep] at h
          exact ih h (applyOp_animKeyInv hstep inv)

theorem runOps_loopMirrorInv {ops : List Op} {s0 s : Model3D}
    (h : runOps s0 ops = .ok s)
    (hg : noCurrentOverwrite s0 ops = true)
    (inv : loopMirrorInv s0) : loopMirrorInv s := by
  induction ops generalizing s0 with
  | nil =>
      simp only [runOps] at h
      injection h with h
      subst h
      exact inv
  | cons op rest ih =>
      simp only [runOps] at h
      simp only [noCurrentOverwrite, Bool.and_eq_true] at hg
      cases hstep : applyOp op s0 with
      | error e => simp only [hstep] at h; exact absurd h (by simp)
      | ok s1 =>
          simp only [hstep] at h
          have hg2 : noCurrentOverwrite s1 rest = true := by
            have := hg.2
            rw [hstep] at this
            exact this
          exact ih h hg2 (applyOp_loopMirrorInv hstep hg.1 inv)

theorem initModel_inv {src : String} {fmt : Option String}
    {anim : Option Bool} {st : Bool} {s0 : Model3D}
    (h0 : Model3D.initModel src fmt anim st = .ok s0) :
    animKeyInv s0 ∧ loopMirrorInv s0 := by
  unfold Model3D.initModel at h0
  repeat' split at h0
  all_goals first
    | (injection h0 with h0; subst h0;
       exact ⟨Or.inl rfl, fun hp => Bool.noConfusion hp,
         fun c hc => by simp [List.lookup] at hc⟩)
    | injection h0

/-- C1: from any state that is playing a non-looping clip, a tick whose
sampled primary-delegate time (after advancing both delegates) is strictly
less than `lastTime` makes `update` snap both delegates to the terminal
frame (the `setToLastFrame` pass whose result is `s2`) and stop via
`stop()`, dispatching one `stop` event; a tick whose sample is at or above
`lastTime` instead records the sample in `lastTime` and stays playing; and
a tick on the stopped result is the identity, so the terminal-frame snap
happens exactly once per completion. -/
theorem C1_update_nonlooping_completion (adv : Rat → Mesh → Mesh)
    (deltaTime : Rat) (s : Model3D)
    (hp : s.playing = true) (hl : s.looping = false)
    (s1 : Model3D)
    (hadv : Model3D.forwardToViews
        (Model3DView.updateAnimation adv (deltaTime * 1000)) s = .ok s1)
    (t : Rat) (ht : s1.view.getLastTime = .ok t) :
    (t < s.lastTime →
      ∀ s2, Model3D.forwardToViews (Model3DView.setToLastFrame adv) s1
          = .ok s2 →
        Model3D.update adv deltaTime s = .ok (Model3D.stop s2) ∧
        (Model3D.stop s2).playing = false ∧
        (Model3D.stop s2).events = s.events ++ [ModelEvent.stop] ∧
        Model3D.update adv deltaTime (Model3D.stop s2)
          = .ok (Model3D.stop s2)) ∧
    (s.lastTime ≤ t →
      Model3D.update adv deltaTime s = .ok ({ s1 with lastTime := t }) ∧
      ({ s1 with lastTime := t } : Model3D).playing = true) := by
  obtain ⟨_, _, _, _, _, hpp, hlp, hlt, hev⟩ := forwardToViews_ok_fields hadv
  have hnp : ¬ s.playing = false := by simp [hp]
  have hl1 : ¬ s1.looping = true := by simp [hlp, hl]
  constructor
  · intro hcmp s2 hsnap
    obtain ⟨_, _, _, _, _, hpp2, _, _, hev2⟩ := forwardToViews_ok_fields hsnap
    have hupd : Model3D.update adv deltaTime s = .ok (Model3D.stop s2) := by
      unfold Model3D.update
      rw [if_neg hnp]
      simp only [hadv]
      rw [if_neg hl1]
      simp only [ht]
      rw [if_pos (show t < s1.lastTime by rw [hlt]; exact hcmp)]
      simp only [hsnap]
    refine ⟨hupd, (stop_fields s2).2.2.2.1, ?_, ?_⟩
    · have hs2p : s2.playing = true := by rw [hpp2, hpp]; exact hp
      simp [Model3D.stop, Model3D.dispatch, hs2p, hev2, hev]
    · unfold Model3D.update
      rw [if_pos (stop_fields s2).2.2.2.1]
  · intro hcmp
    have hupd : Model3D.update adv deltaTime s
        = .ok ({ s1 with lastTime := t }) := by
      unfold Model3D.update
      rw [if_neg hnp]
      simp only [hadv]
      rw [if_neg hl1]
      simp only [ht]
      rw [if_neg (show ¬ t < s1.lastTime by rw [hlt]; exact not_lt.mpr hcmp)]
    exact ⟨hupd, by simp [hpp, hp]⟩

/-- C1 at a concrete playing, non-looping, loaded state whose sampled time 3 drops below the recorded 5. -/
theorem C1_witness :
    Model3D.update c1Adv 1 c1State = .ok (Model3D.stop c1S2) ∧
    (Model3D.stop c1S2).playing = false ∧
    (Model3D.stop c1S2).events = c1State.events ++ [ModelEvent.stop] ∧
    Model3D.update c1Adv 1 (Model3D.stop c1S2) = .ok (Model3D.stop c1S2) :=
  (C1_update_nonlooping_completion c1Adv 1 c1State (by decide) (by decide)
      c1S1 (by decide) 3 (by decide)).1 (by decide) c1S2 (by decide)

/-- C2 as stated is false on the code: after `setAnimation("a", loop:=false)`,
`play("a")`, and a second `setAnimation("a", loop:=true)` overwriting the
selected clip in place, the component is playing with `looping = false`
while the stored clip under the current animation name has `loop = true`
(neither `setAnimation` nor a resuming `play` refreshes `looping_`). -/
theorem C2_counterexample :
    Model3D.initModel "model.json" none none false = .ok initialState ∧
    runOps initialState
      [Op.setAnimation "a" 0 10 1 (some false) none,
       Op.play (some "a"),
       Op.setAnimation "a" 0 10 1 (some true) none] = .ok c2Bad ∧
    c2Bad.playing = true ∧ c2Bad.looping = false ∧
    (c2Bad.animations.lookup c2Bad.animation).map AnimationClip.loop
      = some true :=
  ⟨by decide, rfl, by decide, by decide, by decide⟩

/-- C2 (amended): in every state reachable from construction through the
public operations, provided no `setAnimation` call in the sequence
redefines the name that is the then-current animation (the selected clip
is never overwritten in place), while `playing` is true the `looping`
flag equals the `loop` flag of the clip stored under the current
animation name. -/
theorem C2_loop_mirror_amended (src : String) (fmt : Option String)
    (anim : Option Bool) (st : Bool) (s0 : Model3D)
    (h0 : Model3D.initModel src fmt anim st = .ok s0)
    (ops : List Op) (hg : noCurrentOverwrite s0 ops = true)
    (s : Model3D) (h : runOps s0 ops = .ok s) (hp : s.playing = true) :
    ∃ c, s.animations.lookup s.animation = some c ∧ s.looping = c.loop := by
  have inv := runOps_loopMirrorInv h hg (initModel_inv h0).2
  obtain ⟨c, hc⟩ := Option.isSome_iff_exists.mp (inv.1 hp)
  exact ⟨c, hc, inv.2 c hc⟩

/-- C2 (amended) on a concrete guarded run that plays a non-looping clip. -/
theorem C2_witness :
    ∃ c, c2Good.animations.lookup c2Good.animation = some c ∧
      c2Good.looping = c.loop :=
  C2_loop_mirror_amended "model.json" none none false initialState
    (by decide)
    [Op.setAnimation "a" 0 10 1 (some false) none, Op.play (some "a")]
    (by decide) c2Good rfl (by decide)

/-- C3 as stated is false on the code: in the reachable window after
`setModelSrc` (which nulls the mesh via `loadModel_`/`unload` but leaves
the view's `loaded` flag true until the asynchronous reload completes),
`play` with a fresh, non-empty, registered name dereferences the null
mesh and throws (a TypeError, `nullMesh` here) instead of succeeding. -/
theorem C3_counterexample :
    Model3D.initModel "model.json" none none false = .ok initialState ∧
    runOps initialState
      [Op.finishLoad true c3Mesh,
       Op.setAnimation "a" 0 10 1 none none,
       Op.setAnimation "b" 0 10 1 none none,
       Op.setModelSrc "other.json"] = .ok c3Crash ∧
    ("b" : String) ≠ "" ∧
    (c3Crash.animations.lookup "b").isSome = true ∧
    c3Crash.animation ≠ "b" ∧
    Model3D.play (some "b") c3Crash = .error .nullMesh :=
  ⟨by decide, rfl, by decide, by decide, by decide, by decide⟩

/-- C3 (amended): provided every loaded delegate still has its mesh (play
is not called inside the reload window), `play` fails exactly as
enumerated: with no name and an unregistered current animation it fails
with InvalidState; with an empty name it fails with InvalidArgument;
with a non-empty unregistered name it fails with NotFound; any other
input succeeds. -/
theorem C3_play_error_cases (s : Model3D)
    (hv : s.view.loaded = true → s.view.modelMesh.isSome = true)
    (hsv : ∀ sv, s.stencilView = some sv →
        (sv.loaded = true → sv.modelMesh.isSome = true)) :
    (∀ e, Model3D.play none s = .error e ↔
        (e = .invalidState ∧
         (s.animations.lookup s.animation).isNone = true)) ∧
    (∀ name e, Model3D.play (some name) s = .error e ↔
        ((e = .invalidArgument ∧ name = "") ∨
         (e = .notFound ∧ name ≠ "" ∧
          (s.animations.lookup name).isNone = true))) ∧
    (∀ o : Option String,
        ¬(o = none ∧ (s.animations.lookup s.animation).isNone = true) →
        o ≠ some "" →
        (∀ name, o = some name → name ≠ "" →
          (s.animations.lookup name).isSome = true) →
        ∃ s', Model3D.play o s = .ok s') := by
  refine ⟨?_, ?_, ?_⟩
  · intro e
    cases hx : s.animations.lookup s.animation with
    | some c => simp [Model3D.play, hx]
    | none => cases e <;> simp [Model3D.play, hx]
  · intro name e
    by_cases hne : name = ""
    · subst hne
      cases e <;> simp [Model3D.play]
    · cases hc : s.animations.lookup name with
      | none => cases e <;> simp [Model3D.play, hne, hc]
      | some clip =>
          by_cases hcur : s.animation = name
          · cases e <;> simp [Model3D.play, hne, hc, hcur]
          · obtain ⟨s', hs'⟩ := play_new_ok hne hc hcur hv hsv
            cases e <;> simp [hs', hne, hc]
  · intro o hco hce hcn
    cases o with
    | none =>
        have hcs : (s.animations.lookup s.animation).isSome = true := by
          cases hx : s.animations.lookup s.animation with
          | none => exact absurd ⟨rfl, by simp [hx]⟩ hco
          | some c => simp
        exact ⟨{ s with playing := true }, by simp [Model3D.play, hcs]⟩
    | some name =>
        have hne : name ≠ "" := by
          intro hx; exact hce (by rw [hx])
        obtain ⟨c, hc⟩ := Option.isSome_iff_exists.mp (hcn name rfl hne)
        by_cases hcur : s.animation = name
        · exact ⟨{ s with playing := true }, by simp [Model3D.play, hne, hc, hcur]⟩
        · exact play_new_ok hne hc hcur hv hsv

/-- C3 (amended) at a concrete state with one registered animation and an unloaded delegate. -/
theorem C3_witness :
    (∀ e, Model3D.play none walkState = .error e ↔
        (e = .invalidState ∧
         (walkState.animations.lookup walkState.animation).isNone
           = true)) ∧
    (∀ name e, Model3D.play (some name) walkState = .error e ↔
        ((e = .invalidArgument ∧ name = "") ∨
         (e = .notFound ∧ name ≠ "" ∧
          (walkState.animations.lookup name).isNone = true))) ∧
    (∀ o : Option String,
        ¬(o = none ∧
          (walkState.animations.lookup walkState.animation).isNone
            = true) →
        o ≠ some "" →
        (∀ name, o = some name → name ≠ "" →
          (walkState.animations.lookup name).isSome = true) →
        ∃ s', Model3D.play o walkState = .ok s') :=
  C3_play_error_cases walkState (by decide) (fun sv h => nomatch h)

/-- C4: for a non-empty name and non-negative `start`, `end` and
`seconds`, `setAnimation` succeeds and stores under the name exactly the
clip with `duration = seconds * 1000` and `loop`/`forward` defaulting to
true, overwriting only that key, and leaves the current animation,
playing and looping flags, sampled time, events and model source
unchanged. -/
theorem C4_setAnimation_stores_clip (s : Model3D) (name : String)
    (hn : name ≠ "") (start «end» seconds : Rat)
    (h1 : 0 ≤ start) (h2 : 0 ≤ «end») (h3 : 0 ≤ seconds)
    (opt_loop opt_forward : Option Bool) :
    ∃ s', Model3D.setAnimation name start «end» seconds opt_loop opt_forward s
        = .ok s' ∧
      s'.animations.lookup name = some
        { start := start, «end» := «end», duration := seconds * 1000,
          loop := opt_loop.getD true, forward := opt_forward.getD true } ∧
      (∀ k, k ≠ name → s'.animations.lookup k = s.animations.lookup k) ∧
      s'.animation = s.animation ∧ s'.playing = s.playing ∧
      s'.looping = s.looping ∧ s'.lastTime = s.lastTime ∧
      s'.events = s.events ∧ s'.modelSrc = s.modelSrc := by
  refine ⟨Model3D.mk s.modelSrc s.format s.animated
      (putClip s.animations name (AnimationClip.mk start «end»
        (seconds * 1000) (opt_loop.getD true) (opt_forward.getD true)))
      s.animation s.playing s.looping s.lastTime s.view s.stencilView
      s.events, ?_, ?_, ?_, rfl, rfl, rfl, rfl, rfl, rfl⟩
  · simp [Model3D.setAnimation, hn, not_lt.mpr h1, not_lt.mpr h2,
      not_lt.mpr h3]
  · simp [putClip_lookup]
  · intro k hk
    simp [putClip_lookup, hk]

/-- C4 at the concrete example of the spec: setAnimation("walk", 0, 30, 2.0) stores duration 2 * 1000 = 2000 ms with loop and forward defaulted. -/
theorem C4_witness :
    (2 : Rat) * 1000 = 2000 ∧
    ∃ s', Model3D.setAnimation "walk" 0 30 2 none none walkState = .ok s' ∧
      s'.animations.lookup "walk" = some
        { start := 0, «end» := 30, duration := 2 * 1000,
          loop := (none : Option Bool).getD true,
          forward := (none : Option Bool).getD true } ∧
      (∀ k, k ≠ "walk" → s'.animations.lookup k
        = walkState.animations.lookup k) ∧
      s'.animation = walkState.animation ∧ s'.playing = walkState.playing ∧
      s'.looping = walkState.looping ∧ s'.lastTime = walkState.lastTime ∧
      s'.events = walkState.events ∧ s'.modelSrc = walkState.modelSrc :=
  ⟨by norm_num,
   C4_setAnimation_stores_clip walkState "walk" (by decide) 0 30 2
     (by decide) (by decide) (by decide) none none⟩

/-- C5: for a non-empty path, `setModelSrc` with the current source is a
complete no-op (same state, no event, no reload), while a different path
updates `modelSrc`, stops playback (emitting `stop` only if playing),
then emits `changeModelSrc`, and triggers one reload (mesh dropped,
reload counter bumped) on each present delegate, leaving the animation
registry and selection untouched. -/
theorem C5_setModelSrc (s : Model3D) (path : String) (hp : path ≠ "")
    (hf : s.format = "json") :
    (s.modelSrc = path → Model3D.setModelSrc path s = .ok s) ∧
    (s.modelSrc ≠ path → ∃ s', Model3D.setModelSrc path s = .ok s' ∧
      s'.modelSrc = path ∧ s'.playing = false ∧
      s'.events = s.events
        ++ (if s.playing then [ModelEvent.stop] else [])
        ++ [ModelEvent.changeModelSrc] ∧
      s'.view.reloads = s.view.reloads + 1 ∧ s'.view.modelMesh = none ∧
      (match s.stencilView, s'.stencilView with
       | some sv, some sv' => sv'.reloads = sv.reloads + 1 ∧
                              sv'.modelMesh = none
       | none, none => True
       | _, _ => False) ∧
      s'.animations = s.animations ∧ s'.animation = s.animation ∧
      s'.looping = s.looping) := by
  constructor
  · intro hsame
    simp [Model3D.setModelSrc, hp, hsame]
  · intro hdiff
    unfold Model3D.setModelSrc
    rw [if_neg hp, if_neg hdiff]
    refine ⟨_, rfl, ?_⟩
    cases hsv : s.stencilView with
    | none =>
        by_cases hpl : s.playing = true <;>
          simp [Model3D.stop, Model3D.dispatch, Model3DView.loadModel,
            Model3DView.unload, hsv, hf, hpl]
    | some sv =>
        by_cases hpl : s.playing = true <;>
          simp [Model3D.stop, Model3D.dispatch, Model3DView.loadModel,
            Model3DView.unload, hsv, hf, hpl]

/-- C5 at a concrete playing state and a fresh path. -/
theorem C5_witness :
    (walkPlayed.modelSrc = "other.json" →
      Model3D.setModelSrc "other.json" walkPlayed = .ok walkPlayed) ∧
    (walkPlayed.modelSrc ≠ "other.json" → ∃ s',
      Model3D.setModelSrc "other.json" walkPlayed = .ok s' ∧
      s'.modelSrc = "other.json" ∧ s'.playing = false ∧
      s'.events = walkPlayed.events
        ++ (if walkPlayed.playing then [ModelEvent.stop] else [])
        ++ [ModelEvent.changeModelSrc] ∧
      s'.view.reloads = walkPlayed.view.reloads + 1 ∧
      s'.view.modelMesh = none ∧
      (match walkPlayed.stencilView, s'.stencilView with
       | some sv, some sv' => sv'.reloads = sv.reloads + 1 ∧
                              sv'.modelMesh = none
       | none, none => True
       | _, _ => False) ∧
      s'.animations = walkPlayed.animations ∧
      s'.animation = walkPlayed.animation ∧
      s'.looping = walkPlayed.looping) :=
  C5_setModelSrc walkPlayed "other.json" (by decide) (by decide)

/-- C6: after a successful `play(name)`, calling `play(name)` again with
the same name returns exactly the same state: no new `play` event, no
reset of `lastTime`, and no re-forwarding of the clip to the delegates
(the result is equal as a whole state). -/
theorem C6_play_same_name_idempotent (s s1 : Model3D) (name : String)
    (h : Model3D.play (some name) s = .ok s1) :
    Model3D.play (some name) s1 = .ok s1 := by
  obtain ⟨hne, han, hanims, hpl, hsome⟩ := play_some_ok h
  obtain ⟨c, hc⟩ := Option.isSome_iff_exists.mp hsome
  have hc1 : s1.animations.lookup name = some c := by rw [hanims]; exact hc
  simp [Model3D.play, hne, hc1, han]
  cases s1
  simp_all

/-- C6 on a concrete double play("walk"). -/
theorem C6_witness :
    Model3D.play (some "walk") walkState = .ok walkPlayed ∧
    Model3D.play (some "walk") walkPlayed = .ok walkPlayed :=
  ⟨by decide,
   C6_play_same_name_idempotent walkState walkPlayed "walk" (by decide)⟩

/-- C7: `stop()` always clears the playing flag; it appends a `stop`
event exactly when the state was playing; a second consecutive `stop()`
adds no further event; and after any successful `play` a `stop()` emits
exactly one `stop` event. -/
theorem C7_stop_events (s : Model3D) :
    (Model3D.stop s).playing = false ∧
    (Model3D.stop s).events
      = s.events ++ (if s.playing then [ModelEvent.stop] else []) ∧
    (Model3D.stop (Model3D.stop s)).events
      = s.events ++ (if s.playing then [ModelEvent.stop] else []) ∧
    (∀ o s', Model3D.play o s = .ok s' →
      (Model3D.stop s').events = s'.events ++ [ModelEvent.stop]) := by
  refine ⟨?_, ?_, ?_, ?_⟩
  · by_cases h : s.playing <;> simp [Model3D.stop, Model3D.dispatch, h]
  · by_cases h : s.playing <;> simp [Model3D.stop, Model3D.dispatch, h]
  · by_cases h : s.playing <;> simp [Model3D.stop, Model3D.dispatch, h]
  · intro o s' h
    have hp := play_ok_playing h
    simp [Model3D.stop, Model3D.dispatch, hp]

/-- C7 at a concrete stopped state and after a concrete successful play. -/
theorem C7_stop_events_witness :
    (Model3D.stop walkState).playing = false ∧
    (Model3D.stop walkState).events
      = walkState.events ++ (if walkState.playing then [ModelEvent.stop] else []) ∧
    (Model3D.stop (Model3D.stop walkState)).events
      = walkState.events ++ (if walkState.playing then [ModelEvent.stop] else []) ∧
    (Model3D.stop walkPlayed).events = walkPlayed.events ++ [ModelEvent.stop] :=
  ⟨(C7_stop_events walkState).1, (C7_stop_events walkState).2.1,
   (C7_stop_events walkState).2.2.1,
   (C7_stop_events walkState).2.2.2 (some "walk") walkPlayed (by decide)⟩

/-- C8: in every state reachable from a constructed component through any
sequence of successful public operations (including asynchronous load
completions), the current animation name is either empty or a key
present in the animation registry. -/
theorem C8_animation_key_invariant (src : String) (fmt : Option String)
    (anim : Option Bool) (st : Bool) (s0 : Model3D)
    (h0 : Model3D.initModel src fmt anim st = .ok s0)
    (ops : List Op) (s : Model3D) (h : runOps s0 ops = .ok s) :
    s.animation = "" ∨ (s.animations.lookup s.animation).isSome = true :=
  runOps_animKeyInv h (initModel_inv h0).1

/-- C8 on a concrete run: register, play, stop. -/
theorem C8_witness :
    c8Final.animation = "" ∨
    (c8Final.animations.lookup c8Final.animation).isSome = true :=
  C8_animation_key_invariant "model.json" none none false initialState
    (by decide)
    [Op.setAnimation "walk" 0 30 2 none none, Op.play (some "walk"), Op.stop]
    c8Final rfl

/-- C9: a successful `play` appends a `play` event exactly when it was
called with a name different from the currently selected animation while
not playing; resuming with no name, or with the already-selected name,
appends nothing even when the playing flag transitions to true. -/
theorem C9_play_event_condition (s s' : Model3D) (o : Option String)
    (h : Model3D.play o s = .ok s') :
    s'.events = s.events ++
      (match o with
       | none => []
       | some n => if n ≠ s.animation ∧ s.playing = false
                   then [ModelEvent.play] else []) := by
  cases o with
  | none =>
      simp only [Model3D.play] at h
      split at h
      · injection h with h; subst h; simp
      · exact absurd h (by simp)
  | some name =>
      by_cases hne : name = ""
      · simp [Model3D.play, hne] at h
      · cases hc : s.animations.lookup name with
        | none => simp [Model3D.play, hne, hc] at h
        | some clip =>
          by_cases hcur : s.animation = name
          · simp [Model3D.play, hne, hc, hcur] at h
            subst h
            simp [hcur]
          · cases heq : Model3D.forwardToViews (Model3DView.playAnimation clip)
                ({ s with animation := name }) with
            | error e => simp [Model3D.play, hne, hc, hcur, heq] at h
            | ok s2 =>
              obtain ⟨_, _, _, _, _, hp, _, _, hev⟩ :=
                forwardToViews_ok_fields heq
              by_cases hpl : s2.playing = true
              · simp [Model3D.play, hne, hc, hcur, heq, hpl] at h
                subst h
                have hsp : s.playing = true := by rw [← hp]; exact hpl
                simp [hsp, hev]
              · simp [Model3D.play, hne, hc, hcur, heq, hpl] at h
                subst h
                have hsp : s.playing = false := by
                  rw [← hp]; simpa using hpl
                have hnc : name ≠ s.animation := fun hx => hcur hx.symm
                simp [hsp, hnc, Model3D.dispatch, hev]

/-- C9 on a concrete first play of a fresh name. -/
theorem C9_witness :
    walkPlayed.events = walkState.events ++
      (match some "walk" with
       | none => []
       | some n => if n ≠ walkState.animation ∧ walkState.playing = false
                   then [ModelEvent.play] else []) :=
  C9_play_event_condition walkState walkPlayed (some "walk") (by decide)

/-- C10: while the delegate is not loaded, consecutive `playAnimation`
calls overwrite the single pending slot so only the most recent clip is
retained; on the first `updateAnimation` after the load completes, that
clip is applied (clock reset to 0, duration, direction and frame range
set from the clip) before the clock advance, and the pending slot is
cleared. -/
theorem C10_pending_last_wins (v : Model3DView) (hl : v.loaded = false)
    (c1 c2 : AnimationClip) (m : Mesh) (adv : Rat → Mesh → Mesh) (d : Rat) :
    (Model3DView.playAnimation c1 v).bind (Model3DView.playAnimation c2)
      = .ok ({ v with pendingAnimation := some c2 }) ∧
    Model3DView.updateAnimation adv d
        (Model3DView.finishLoad true m ({ v with pendingAnimation := some c2 }))
      = .ok (Model3DView.mk true none
          (some (adv d (Mesh.mk 0 c2.duration c2.forward c2.start c2.«end»
            true)))
          true v.reloads) := by
  constructor
  · simp [Model3DView.playAnimation, hl, Except.bind]
  · simp [Model3DView.updateAnimation, Model3DView.playAnimation,
      Model3DView.finishLoad]

/-- C10 at a concrete unloaded view, two queued clips, and an identity clock update. -/
theorem C10_witness :
    (Model3DView.playAnimation c10ClipA c10View).bind
        (Model3DView.playAnimation c10ClipB)
      = .ok ({ c10View with pendingAnimation := some c10ClipB }) ∧
    Model3DView.updateAnimation c1Adv 7
        (Model3DView.finishLoad true c10Mesh
          ({ c10View with pendingAnimation := some c10ClipB }))
      = .ok (Model3DView.mk true none
          (some (c1Adv 7 (Mesh.mk 0 c10ClipB.duration c10ClipB.forward
            c10ClipB.start c10ClipB.«end» true))) true c10View.reloads) :=
  C10_pending_last_wins c10View (by decide) c10ClipA c10ClipB c10Mesh c1Adv 7

end Spellbook
